import Mathlib

/-!
# Verification of the jitsi-meet reaction-batching and lobby-coordination logic

Shallow embedding of the reaction middleware
(`src/react/features/reactions/middleware.js`), the lobby action creators
(`src/react/features/speaker-stats/components/SpeakerStats.js`, second half of
the file), and the web `MessageRecipient` component (`src/unnamed/part_001`).

Redux thunks and middleware cases are embedded as pure functions from an
explicit state record to a new state together with a list of emitted
observable effects (dispatched actions and calls on the external conference
collaborator).  JavaScript runtime exceptions (property access on
`undefined`) are embedded as `Except String`.
-/

namespace Jitsi

/-! ## Reaction buffering (middleware.js, ADD_REACTION_BUFFER / FLUSH_REACTION_BUFFER) -/

/-- State of the `features/reactions` slice relevant to buffering: the pending
reaction buffer and the pending deferred-flush timer, represented by the
absolute time at which the scheduled flush would fire (`none` = no pending
timer). -/
structure BufferState where
  buffer : List String
  pending : Option Nat
  deriving Repr, DecidableEq

/-- The `ADD_REACTION_BUFFER` case of the middleware (middleware.js:95-107),
executed at absolute time `t`: `clearTimeout(timeoutID)` cancels any pending
flush, `buffer.push(reaction)` appends the reaction, and
`setTimeout(..., 500)` schedules a flush 500 time units out. -/
def addReaction (s : BufferState) (t : Nat) (r : String) : BufferState :=
  { buffer := s.buffer ++ [r], pending := some (t + 500) }

/-- A pending flush timer fires: the flush handler reads the whole buffer
(middleware.js:117-133) and the buffer is cleared.  The clearing is modelled
from the spec: the `FLUSH_REACTION_BUFFER` reducer is not under `src/`; the
spec states the buffer is "cleared atomically on flush". -/
def fireFlush (s : BufferState) : BufferState × List String :=
  ({ buffer := [], pending := none }, s.buffer)

/-- Process a chronological list of timestamped `ADD_REACTION_BUFFER` events.
Before an event at time `t` is handled, a pending timer whose fire time is
`≤ t` fires first (the timer was due before the event arrived); otherwise the
event's `clearTimeout` cancels the pending timer.  Returns the final state
and the list of fired flushes (each flush is the buffer it carried). -/
def runEvents : BufferState → List (Nat × String) → BufferState × List (List String)
  | s, [] => (s, [])
  | s, (t, r) :: rest =>
    match s.pending with
    | some tf =>
      if tf ≤ t then
        let fired := fireFlush s
        let next := runEvents (addReaction fired.1 t r) rest
        (next.1, fired.2 :: next.2)
      else
        runEvents (addReaction s t r) rest
    | none => runEvents (addReaction s t r) rest

/-- Run a whole trace from the initial empty state and then let any
still-pending timer fire (quiescence): the list of all flushes that occur. -/
def runTrace (events : List (Nat × String)) : List (List String) :=
  let out := runEvents ⟨[], none⟩ events
  match out.1.pending with
  | some _ => out.2 ++ [(fireFlush out.1).2]
  | none => out.2

/-- Pure accumulation: what the buffer state looks like when every event just
cancels the pending timer and appends. -/
def accum : BufferState → List (Nat × String) → BufferState
  | s, [] => s
  | s, (t, r) :: rest => accum (addReaction s t r) rest

theorem accum_buffer (events : List (Nat × String)) :
    ∀ s : BufferState, (accum s events).buffer = s.buffer ++ events.map Prod.snd := by
  induction events with
  | nil => intro s; simp [accum]
  | cons e rest ih =>
    intro s
    obtain ⟨t, r⟩ := e
    simp [accum, ih, addReaction]

theorem accum_pending_isSome (events : List (Nat × String)) :
    ∀ s : BufferState, events ≠ [] → ((accum s events).pending).isSome := by
  induction events with
  | nil => intro s h; exact absurd rfl h
  | cons e rest ih =>
    intro s _
    obtain ⟨t, r⟩ := e
    by_cases hrest : rest = []
    · subst hrest; simp [accum, addReaction]
    · exact ih (addReaction s t r) hrest

/-- Within a burst where each event arrives strictly before the pending flush
would fire, every event cancels and reschedules: no flush fires and the
buffer just accumulates. -/
theorem runEvents_all_cancel (events : List (Nat × String)) :
    ∀ s : BufferState,
      List.Chain' (fun a b : Nat × String => b.1 < a.1 + 500) events →
      (∀ tf, s.pending = some tf → ∀ e, events.head? = some e → e.1 < tf) →
      runEvents s events = (accum s events, []) := by
  induction events with
  | nil => intro s _ _; rfl
  | cons e rest ih =>
    intro s hchain hhead
    obtain ⟨t, r⟩ := e
    have hrest_chain : List.Chain' (fun a b : Nat × String => b.1 < a.1 + 500) rest :=
      hchain.tail
    have hrest_head : ∀ tf, (addReaction s t r).pending = some tf →
        ∀ e', rest.head? = some e' → e'.1 < tf := by
      intro tf hp e' he'
      simp [addReaction] at hp
      subst hp
      cases rest with
      | nil => simp at he'
      | cons e2 rest2 =>
        simp at he'
        subst he'
        exact List.chain'_cons.mp hchain |>.1
    cases hp : s.pending with
    | none =>
      simp [runEvents, hp]
      exact ih (addReaction s t r) hrest_chain hrest_head
    | some tf =>
      have ht : t < tf := hhead tf hp (t, r) rfl
      simp [runEvents, hp, Nat.not_le.mpr ht]
      exact ih (addReaction s t r) hrest_chain hrest_head

/-- C1.  For every non-empty chronological sequence of `ADD_REACTION_BUFFER`
events in which each reaction arrives strictly less than 500 units after the
previous one (a single debounce window), exactly one flush fires, and it
carries every reaction of the window in arrival order, none lost, none
duplicated. -/
theorem single_window_one_flush (events : List (Nat × String))
    (hne : events ≠ [])
    (hchain : List.Chain' (fun a b : Nat × String => b.1 < a.1 + 500) events) :
    runTrace events = [events.map Prod.snd] := by
  have hrun : runEvents ⟨[], none⟩ events = (accum ⟨[], none⟩ events, []) :=
    runEvents_all_cancel events ⟨[], none⟩ hchain (by intro tf htf; simp at htf)
  have hsome : ((accum ⟨[], none⟩ events).pending).isSome :=
    accum_pending_isSome events ⟨[], none⟩ hne
  have hbuf : (accum ⟨[], none⟩ events).buffer = events.map Prod.snd := by
    simpa using accum_buffer events ⟨[], none⟩
  unfold runTrace
  rw [hrun]
  cases hp : (accum ⟨[], none⟩ events).pending with
  | none => rw [hp] at hsome; simp at hsome
  | some tf => dsimp only; rw [hp]; simp [fireFlush, hbuf]

/-- Witness for C1: two reactions 100 units apart produce one flush holding
both in order. -/
theorem single_window_one_flush_witness :
    runTrace [(0, "like"), (100, "clap")] = [["like", "clap"]] :=
  single_window_one_flush [(0, "like"), (100, "clap")] (by decide)
    (by simp)

/-! ## Flush pipeline effects (middleware.js, FLUSH_REACTION_BUFFER / SEND_REACTIONS / PUSH_REACTIONS) -/

/-- Observable effects of the reactions middleware: dispatched actions and
calls on the external collaborators. -/
inductive RxEffect where
  | sendReactionsDispatch
  | endpointSend (reactions : List String)
  | chatAppend (buffer : List String)
  | pushReactionsDispatch (reactions : List String)
  | webhook (buffer : List String)
  deriving Repr, DecidableEq

/-- The `SEND_REACTIONS` case (middleware.js:159-172): when a conference
object is present, `conference.sendEndpointMessage` is called with the whole
current buffer. -/
def sendReactionsCase (hasConference : Bool) (buffer : List String) : List RxEffect :=
  if hasConference then [RxEffect.endpointSend buffer] else []

/-- The `FLUSH_REACTION_BUFFER` case (middleware.js:117-133), with the
`sendReactions()` dispatch expanded through the `SEND_REACTIONS` case of the
same middleware: `sendReactions` is dispatched only when
`participantCount > 1`; `addReactionsToChat` and `pushReactions` are
dispatched unconditionally; finally the webhook is notified. -/
def flushCase (participantCount : Nat) (hasConference : Bool) (buffer : List String) :
    List RxEffect :=
  (if 1 < participantCount
   then RxEffect.sendReactionsDispatch :: sendReactionsCase hasConference buffer
   else [])
  ++ [RxEffect.chatAppend buffer, RxEffect.pushReactionsDispatch buffer,
      RxEffect.webhook buffer]

/-- Modelled from the spec: `getReactionsWithId` (reactions `functions.any`,
not under `src/`) tags each buffered reaction with a freshly generated
display identifier ("a Reaction plus a generated unique display identifier
and arrival order"). -/
def getReactionsWithId (reactions : List String) (nextId : Nat) : List (String × Nat) :=
  reactions.zip (List.range' nextId reactions.length)

/-- The queue update performed by the `PUSH_REACTIONS` case
(middleware.js:135-157): `setReactionQueue([...queue, ...getReactionsWithId(reactions)])`. -/
def pushReactionsQueue (queue : List (String × Nat)) (nextId : Nat)
    (reactions : List String) : List (String × Nat) :=
  queue ++ getReactionsWithId reactions nextId

/-- C7.  For every flush of a non-empty buffer: the network send
(`sendReactions` dispatch, and `sendEndpointMessage` when a conference is
present) is requested iff the participant count exceeds one, while the
chat-log append and the display-queue push are dispatched for every count. -/
theorem flush_send_iff_participant_count (participantCount : Nat) (hasConference : Bool)
    (buffer : List String) (hne : buffer ≠ []) :
    (RxEffect.sendReactionsDispatch ∈ flushCase participantCount hasConference buffer
      ↔ 1 < participantCount)
    ∧ (hasConference = true →
        (RxEffect.endpointSend buffer ∈ flushCase participantCount hasConference buffer
          ↔ 1 < participantCount))
    ∧ RxEffect.chatAppend buffer ∈ flushCase participantCount hasConference buffer
    ∧ RxEffect.pushReactionsDispatch buffer ∈ flushCase participantCount hasConference buffer := by
  by_cases h : 1 < participantCount <;>
    cases hasConference <;>
      simp [flushCase, sendReactionsCase, h]

/-- Witness for C7: three participants, conference present, one buffered
reaction: the send is requested. -/
theorem flush_send_iff_participant_count_witness :
    RxEffect.sendReactionsDispatch ∈ flushCase 3 true ["like"] :=
  (flush_send_iff_participant_count 3 true ["like"] (by decide)).1.mpr (by decide)

/-- C6 counterexample: flushing an *empty* buffer with two participants and a
conference present still requests a network send — `sendReactions` is
dispatched and `sendEndpointMessage` is called with an empty reactions list,
so the flush of an empty buffer is not a no-op. -/
theorem empty_flush_requests_send :
    RxEffect.sendReactionsDispatch ∈ flushCase 2 true []
    ∧ RxEffect.endpointSend [] ∈ flushCase 2 true []
    ∧ RxEffect.chatAppend [] ∈ flushCase 2 true [] := by decide

/-- C6 amended.  When flush fires with an empty buffer, no entries are added
to the on-screen display queue (the queue is unchanged); however a network
send is still requested exactly when the participant count exceeds one, and
a chat-append of the empty buffer is still dispatched. -/
theorem empty_flush_queue_unchanged (participantCount : Nat) (hasConference : Bool)
    (queue : List (String × Nat)) (nextId : Nat) :
    pushReactionsQueue queue nextId [] = queue
    ∧ (RxEffect.sendReactionsDispatch ∈ flushCase participantCount hasConference []
        ↔ 1 < participantCount)
    ∧ RxEffect.chatAppend [] ∈ flushCase participantCount hasConference [] := by
  refine ⟨by simp [pushReactionsQueue, getReactionsWithId], ?_, ?_⟩ <;>
    by_cases h : 1 < participantCount <;>
      cases hasConference <;>
        simp [flushCase, sendReactionsCase, h]

/-! ## The mute-reactions-on-start command (middleware.js, `_onMuteReactionsCommand`) -/

/-- A conference participant as seen by `getParticipantById`: id, whether it
is the local participant, and its role. -/
structure Participant where
  id : String
  name : String := ""
  email : String := ""
  isLocal : Bool := false
  role : String := "none"
  deriving Repr, DecidableEq

/-- `getParticipantById` (base/participants): looks the participant up by id.
`none` models the JavaScript `undefined` returned when no participant
matches. -/
def getParticipantById (participants : List Participant) (id : String) : Option Participant :=
  participants.find? fun p => p.id == id

/-- The state read by `_onMuteReactionsCommand`: the participant list, the
`startReactionsMuted` flag of the conference slice (possibly undefined — the
code coerces it with `Boolean(...)`) and the `soundsReactions` setting. -/
structure MuteCommandState where
  participants : List Participant
  startReactionsMuted : Option Bool
  soundsReactions : Bool
  deriving Repr, DecidableEq

/-- `_onMuteReactionsCommand` (middleware.js:225-258).  `attrMuted` is the
`startReactionsMuted` attribute carried by the command (`none` when absent);
`id` is the sender id (`none` models `undefined`).  The handler returns
unchanged state when the sender id is undefined, when the sender is the
local participant, or when the sender's role is not moderator; otherwise it
applies `setStartReactionsMuted(newState)` together with the
`soundsReactions` toggle in one `batch` exactly when the commanded boolean
differs from the current one.  JavaScript's TypeError on reading `.local` of
an `undefined` participant (sender id matching no participant) is embedded
as `Except.error`. -/
def onMuteReactionsCommand (attrMuted : Option String) (id : Option String)
    (s : MuteCommandState) : Except String MuteCommandState :=
  match id with
  | none => Except.ok s
  | some i =>
    match getParticipantById s.participants i with
    | none => Except.error "TypeError: cannot read property local of undefined"
    | some p =>
      if p.isLocal then Except.ok s
      else if p.role ≠ "moderator" then Except.ok s
      else
        let oldState := s.startReactionsMuted.getD false
        let newState := attrMuted == some "true"
        if oldState ≠ newState then
          Except.ok { s with startReactionsMuted := some newState,
                             soundsReactions := !newState }
        else Except.ok s

/-- C2.  Processing a mute-reactions command leaves the state unchanged and
never throws when the sender id is undefined, when the sender is the local
participant, or when the sender's role is not moderator; and when all three
checks pass, the paired update (mute flag plus `soundsReactions` toggle,
applied as one unit) happens exactly when the commanded boolean differs from
the current `startReactionsMuted` boolean. -/
theorem mute_command_authorization (attrMuted : Option String) (id : Option String)
    (s : MuteCommandState) :
    (id = none → onMuteReactionsCommand attrMuted id s = Except.ok s)
    ∧ (∀ i p, id = some i → getParticipantById s.participants i = some p →
        (p.isLocal = true ∨ p.role ≠ "moderator") →
        onMuteReactionsCommand attrMuted id s = Except.ok s)
    ∧ (∀ i p, id = some i → getParticipantById s.participants i = some p →
        p.isLocal = false → p.role = "moderator" →
        onMuteReactionsCommand attrMuted id s =
          Except.ok (if s.startReactionsMuted.getD false ≠ (attrMuted == some "true")
            then { s with startReactionsMuted := some (attrMuted == some "true"),
                          soundsReactions := !(attrMuted == some "true") }
            else s)) := by
  refine ⟨?_, ?_, ?_⟩
  · intro h
    subst h
    rfl
  · intro i p hid hp hguard
    subst hid
    rcases hguard with hl | hr
    · simp [onMuteReactionsCommand, hp, hl]
    · cases hli : p.isLocal <;> simp [onMuteReactionsCommand, hp, hr, hli]
  · intro i p hid hp hl hr
    subst hid
    by_cases hc : s.startReactionsMuted.getD false = (attrMuted == some "true") <;>
      simp [onMuteReactionsCommand, hp, hl, hr, hc]

/-- Witness for C2: a remote moderator commands `startReactionsMuted=true`
while the current flag is false — the paired update is applied. -/
theorem mute_command_authorization_witness :
    onMuteReactionsCommand (some "true") (some "m1")
        { participants := [{ id := "m1", isLocal := false, role := "moderator" }],
          startReactionsMuted := some false, soundsReactions := true }
      = Except.ok { participants := [{ id := "m1", isLocal := false, role := "moderator" }],
                    startReactionsMuted := some true, soundsReactions := false } := by
  have h := (mute_command_authorization (some "true") (some "m1")
      { participants := [{ id := "m1", isLocal := false, role := "moderator" }],
        startReactionsMuted := some false, soundsReactions := true }).2.2
      "m1" { id := "m1", isLocal := false, role := "moderator" } rfl (by decide) rfl rfl
  rw [h]
  rfl

/-! ## Lobby action creators (SpeakerStats.js, second half of the file) -/

/-- A knocking (lobby) participant: id, name, email, and the id of the
moderator currently in 1:1 lobby chat with them, if any. -/
structure KnockingParticipant where
  id : String
  name : String := ""
  email : String := ""
  chattingWithModerator : Option String := none
  deriving Repr, DecidableEq

/-- Commands issued to the external conference collaborator. -/
inductive ConfCommand where
  | lobbyApproveAccess (id : String)
  | lobbyDenyAccess (id : String)
  | joinLobby (name : String) (email : String)
  | sendModeratorLeftMessage (moderatorId : String) (target : String)
  deriving Repr, DecidableEq

/-- Redux actions dispatched by the lobby thunks. -/
inductive LobbyAction where
  | setLobbyParticipantChatState (attendeeId moderatorId : String)
  | lobbyChatInitializedAction (attendeeId moderatorId : String)
  | showLobbyChatNotice (moderatorName attendeeName : String)
  | removeLobbyChatParticipant (removeLobbyChatMessages : Bool)
  | removeLobbyChatWithModerator (moderatorId : String)
  | setKnockingState (knocking : Bool)
  | conferenceWillJoin
  deriving Repr, DecidableEq

/-- `setKnockingParticipantApproval` (SpeakerStats.js:367-379): if a current
conference exists, issue `lobbyApproveAccess` or `lobbyDenyAccess`; no redux
action is dispatched. -/
def setKnockingParticipantApproval (hasConference : Bool) (id : String) (approved : Bool) :
    List LobbyAction × List ConfCommand :=
  if hasConference then
    if approved then ([], [ConfCommand.lobbyApproveAccess id])
    else ([], [ConfCommand.lobbyDenyAccess id])
  else ([], [])

/-- `approveKnockingParticipant` (SpeakerStats.js:403-409):
`conference && conference.lobbyApproveAccess(id)`; no redux action is
dispatched. -/
def approveKnockingParticipant (hasConference : Bool) (id : String) :
    List LobbyAction × List ConfCommand :=
  if hasConference then ([], [ConfCommand.lobbyApproveAccess id]) else ([], [])

/-- `rejectKnockingParticipant` (SpeakerStats.js:417-423):
`conference && conference.lobbyDenyAccess(id)`; no redux action is
dispatched. -/
def rejectKnockingParticipant (hasConference : Bool) (id : String) :
    List LobbyAction × List ConfCommand :=
  if hasConference then ([], [ConfCommand.lobbyDenyAccess id]) else ([], [])

/-- `admitMultiple` (SpeakerStats.js:387-395):
`participants.forEach(p => conference.lobbyApproveAccess(p.id))`.  There is
no guard on `conference`: calling it with no current conference and a
non-empty list throws a TypeError on the first iteration (embedded as
`Except.error`); with a conference present it issues one approve command per
participant and dispatches no redux action. -/
def admitMultiple (hasConference : Bool) (participants : List KnockingParticipant) :
    Except String (List LobbyAction × List ConfCommand) :=
  if hasConference then
    Except.ok ([], participants.map fun p => ConfCommand.lobbyApproveAccess p.id)
  else
    match participants with
    | [] => Except.ok ([], [])
    | _ :: _ => Except.error "TypeError: cannot read property lobbyApproveAccess of undefined"

/-- `startKnocking` (SpeakerStats.js:478-494): dispatches
`conferenceWillJoin(membersOnly)`, sends the local participant to the
conference, then calls `membersOnly.joinLobby(localParticipant.name,
localParticipant.email)`, registers the lobby message listener and sets the
knocking flag.  With no members-only conference, or no local participant,
the call throws a TypeError (embedded as `Except.error`); effects dispatched
before the throw are not modelled. -/
def startKnocking (hasMembersOnly : Bool) (localParticipant : Option Participant) :
    Except String (List LobbyAction × List ConfCommand) :=
  if hasMembersOnly then
    match localParticipant with
    | none => Except.error "TypeError: cannot read property name of undefined"
    | some lp =>
      Except.ok ([LobbyAction.conferenceWillJoin, LobbyAction.setKnockingState true],
        [ConfCommand.joinLobby lp.name lp.email])
  else Except.error "TypeError: cannot read property joinLobby of undefined"

/-- C5.  With a conference present, `setKnockingParticipantApproval`,
`approveKnockingParticipant` and `rejectKnockingParticipant` only issue the
admission or denial command and dispatch no redux action — so for any
reducer whatsoever the local state (in particular the knocking-participant
set) is unchanged — and approving the same id twice issues exactly two
approve commands while the knocking set still contains that participant. -/
theorem approval_is_pure_command (id : String) (approved : Bool)
    (ks : List KnockingParticipant)
    (reduce : List KnockingParticipant → LobbyAction → List KnockingParticipant)
    (k : KnockingParticipant) (hk : k ∈ ks) :
    setKnockingParticipantApproval true id approved
      = ([], [if approved then ConfCommand.lobbyApproveAccess id
              else ConfCommand.lobbyDenyAccess id])
    ∧ approveKnockingParticipant true id = ([], [ConfCommand.lobbyApproveAccess id])
    ∧ rejectKnockingParticipant true id = ([], [ConfCommand.lobbyDenyAccess id])
    ∧ (approveKnockingParticipant true id).2 ++ (approveKnockingParticipant true id).2
      = [ConfCommand.lobbyApproveAccess id, ConfCommand.lobbyApproveAccess id]
    ∧ List.foldl reduce ks
        ((approveKnockingParticipant true id).1 ++ (approveKnockingParticipant true id).1)
      = ks
    ∧ k ∈ List.foldl reduce ks
        ((approveKnockingParticipant true id).1 ++ (approveKnockingParticipant true id).1) := by
  refine ⟨?_, rfl, rfl, rfl, rfl, ?_⟩
  · cases approved <;> rfl
  · simpa [approveKnockingParticipant] using hk

/-- Witness for C5: double-approving participant "k1" issues two approve
commands and the knocking set still contains "k1". -/
theorem approval_is_pure_command_witness :
    (approveKnockingParticipant true "k1").2 ++ (approveKnockingParticipant true "k1").2
      = [ConfCommand.lobbyApproveAccess "k1", ConfCommand.lobbyApproveAccess "k1"] :=
  (approval_is_pure_command "k1" true [{ id := "k1" }] (fun s _ => s)
    { id := "k1" } (by decide)).2.2.2.1

/-- C8.  With a conference present, `admitMultiple` issues exactly one
approve command per participant, in order, dispatching no redux action; the
commands for a suffix of the list are exactly those issued when handling the
suffix alone, so no outcome of an earlier approval can prevent the later
approve commands from being issued. -/
theorem admit_multiple_one_approve_each (ps l r : List KnockingParticipant)
    (hsplit : ps = l ++ r) :
    admitMultiple true ps
      = Except.ok ([], ps.map fun p => ConfCommand.lobbyApproveAccess p.id)
    ∧ admitMultiple true ps
      = Except.ok ([], (l.map fun p => ConfCommand.lobbyApproveAccess p.id)
          ++ (admitMultiple true r).toOption.elim [] Prod.snd) := by
  subst hsplit
  refine ⟨rfl, ?_⟩
  simp [admitMultiple, Except.toOption]

/-- Witness for C8: admitting "a" and "b" issues two approve commands, and
the command for "b" is exactly what admitting "b" alone would issue. -/
theorem admit_multiple_one_approve_each_witness :
    admitMultiple true [{ id := "a" }, { id := "b" }]
      = Except.ok ([], [ConfCommand.lobbyApproveAccess "a", ConfCommand.lobbyApproveAccess "b"]) :=
  (admit_multiple_one_approve_each [{ id := "a" }, { id := "b" }]
    [{ id := "a" }] [{ id := "b" }] rfl).1

/-- C9.  The error-propagation policy fails on the code as written: the
mute-reactions command handler throws a TypeError when the sender id matches
no known participant (`getParticipantById` returns `undefined` and the
handler reads `.local` on it, despite its own comment that a command "MUST
be issued by a defined commander" is to be ignored); `admitMultiple` throws
when no current conference exists (unlike the guarded
`approveKnockingParticipant` in the same file); and `startKnocking` throws
when the members-only conference is absent. -/
theorem handlers_throw_on_missing_references :
    onMuteReactionsCommand none (some "ghost")
        { participants := [{ id := "me", isLocal := true, role := "moderator" }],
          startReactionsMuted := some false, soundsReactions := true }
      = Except.error "TypeError: cannot read property local of undefined"
    ∧ admitMultiple false [{ id := "k1" }]
      = Except.error "TypeError: cannot read property lobbyApproveAccess of undefined"
    ∧ startKnocking false (some { id := "me" })
      = Except.error "TypeError: cannot read property joinLobby of undefined" :=
  ⟨rfl, rfl, rfl⟩

/-! ## Lobby chat initialization (SpeakerStats.js, `handleLobbyChatInitialized`) -/

/-- The `LOBBY_CHAT_INITIALIZED` payload: the initiating moderator and the
attendee, each carrying an id and a display name. -/
structure ChatInitPayload where
  moderatorId : String
  moderatorName : String
  attendeeId : String
  attendeeName : String
  deriving Repr, DecidableEq

/-- The state read by `handleLobbyChatInitialized`: the knocking-participant
set, the receiving client's conference role (`conference.getRole()`), and
its own lobby user id (`conference.myLobbyUserId()`). -/
structure ChatInitState where
  knockingParticipants : List KnockingParticipant
  conferenceRole : String
  myLobbyUserId : String
  deriving Repr, DecidableEq

/-- `handleLobbyChatInitialized` (SpeakerStats.js:547-574): records the
{moderator, attendee} pairing (`SET_LOBBY_PARTICIPANT_CHAT_STATE`),
forwards to the chat subsystem (`onLobbyChatInitialized`), and shows an
informational notice iff the attendee is still knocking, the receiving
client's role is moderator, and the initiating moderator is not this client. -/
def handleLobbyChatInitialized (s : ChatInitState) (payload : ChatInitPayload) :
    List LobbyAction :=
  [LobbyAction.setLobbyParticipantChatState payload.attendeeId payload.moderatorId,
   LobbyAction.lobbyChatInitializedAction payload.attendeeId payload.moderatorId]
  ++ (if (s.knockingParticipants.any fun p => p.id == payload.attendeeId)
        && (s.conferenceRole == "moderator") && (payload.moderatorId != s.myLobbyUserId)
      then [LobbyAction.showLobbyChatNotice payload.moderatorName payload.attendeeName]
      else [])

/-- Recognizes the informational "lobby chat started" notice. -/
def isLobbyChatNotice : LobbyAction → Bool
  | LobbyAction.showLobbyChatNotice _ _ => true
  | _ => false

/-- The notice guard of `handleLobbyChatInitialized`, as a proposition. -/
theorem chatInitCond_iff (s : ChatInitState) (payload : ChatInitPayload) :
    ((s.knockingParticipants.any fun p => p.id == payload.attendeeId)
      && (s.conferenceRole == "moderator") && (payload.moderatorId != s.myLobbyUserId)) = true
    ↔ ((∃ p ∈ s.knockingParticipants, p.id = payload.attendeeId)
        ∧ s.conferenceRole = "moderator" ∧ payload.moderatorId ≠ s.myLobbyUserId) := by
  simp [List.any_eq_true, and_assoc]

/-- How many notices `handleLobbyChatInitialized` dispatches. -/
theorem lobbyChatNotice_count (s : ChatInitState) (payload : ChatInitPayload) :
    (handleLobbyChatInitialized s payload).countP isLobbyChatNotice
      = if (s.knockingParticipants.any fun p => p.id == payload.attendeeId)
           && (s.conferenceRole == "moderator") && (payload.moderatorId != s.myLobbyUserId)
        then 1 else 0 := by
  unfold handleLobbyChatInitialized
  cases hcond : (s.knockingParticipants.any fun p => p.id == payload.attendeeId)
      && (s.conferenceRole == "moderator") && (payload.moderatorId != s.myLobbyUserId) <;>
    simp [isLobbyChatNotice, List.countP_cons, List.countP_append]

/-- C3.  Handling `LOBBY_CHAT_INITIALIZED` always records the {moderator,
attendee} pairing, and dispatches exactly one informational notice — and it
names the initiating moderator and the attendee — iff the attendee is still
in the knocking set, the receiving client's role is moderator, and the
initiating moderator's id differs from the receiving client's own lobby user
id; otherwise it dispatches none. -/
theorem chat_initialized_notice_iff (s : ChatInitState) (payload : ChatInitPayload) :
    LobbyAction.setLobbyParticipantChatState payload.attendeeId payload.moderatorId
      ∈ handleLobbyChatInitialized s payload
    ∧ ((handleLobbyChatInitialized s payload).countP isLobbyChatNotice = 1 ↔
        ((∃ p ∈ s.knockingParticipants, p.id = payload.attendeeId)
          ∧ s.conferenceRole = "moderator" ∧ payload.moderatorId ≠ s.myLobbyUserId))
    ∧ ((handleLobbyChatInitialized s payload).countP isLobbyChatNotice = 1 →
        LobbyAction.showLobbyChatNotice payload.moderatorName payload.attendeeName
          ∈ handleLobbyChatInitialized s payload)
    ∧ (handleLobbyChatInitialized s payload).countP isLobbyChatNotice ≤ 1 := by
  refine ⟨by simp [handleLobbyChatInitialized], ?_, ?_, ?_⟩
  · rw [lobbyChatNotice_count, ← chatInitCond_iff s payload]
    cases hcond : (s.knockingParticipants.any fun p => p.id == payload.attendeeId)
        && (s.conferenceRole == "moderator") && (payload.moderatorId != s.myLobbyUserId) <;>
      simp [hcond]
  · intro h1
    rw [lobbyChatNotice_count] at h1
    cases hcond : (s.knockingParticipants.any fun p => p.id == payload.attendeeId)
        && (s.conferenceRole == "moderator") && (payload.moderatorId != s.myLobbyUserId)
    · rw [hcond] at h1
      simp at h1
    · unfold handleLobbyChatInitialized
      rw [hcond]
      simp
  · rw [lobbyChatNotice_count]
    cases hcond : (s.knockingParticipants.any fun p => p.id == payload.attendeeId)
        && (s.conferenceRole == "moderator") && (payload.moderatorId != s.myLobbyUserId) <;>
      simp

/-- Witness for C3: moderator M2 receives the message while attendee "x" is
still knocking and the initiator is "m1" ≠ "m2": exactly one notice. -/
theorem chat_initialized_notice_iff_witness :
    (handleLobbyChatInitialized
        { knockingParticipants := [{ id := "x" }], conferenceRole := "moderator",
          myLobbyUserId := "m2" }
        { moderatorId := "m1", moderatorName := "Mod One", attendeeId := "x",
          attendeeName := "Xena" }).countP isLobbyChatNotice = 1 :=
  (chat_initialized_notice_iff
      { knockingParticipants := [{ id := "x" }], conferenceRole := "moderator",
        myLobbyUserId := "m2" }
      { moderatorId := "m1", moderatorName := "Mod One", attendeeId := "x",
        attendeeName := "Xena" }).2.1.mpr
    ⟨⟨{ id := "x" }, by decide, rfl⟩, rfl, by decide⟩

/-! ## Moderator leaving a lobby chat (SpeakerStats.js, `updateLobbyParticipantOnModeratorLeave`) -/

/-- The local lobby chat recipient (`lobbyMessageRecipient` of the chat
slice). -/
structure ChatRecipient where
  id : String
  name : String := ""
  deriving Repr, DecidableEq

/-- The state read by `updateLobbyParticipantOnModeratorLeave`: whether the
local participant is knocking, the knocking set (moderator side), and the
local lobby chat recipient (attendee side). -/
structure ModeratorLeaveState where
  knocking : Bool
  knockingParticipants : List KnockingParticipant
  lobbyMessageRecipient : Option ChatRecipient
  deriving Repr, DecidableEq

/-- Modelled from the spec: the `removeLobbyChatParticipant` chat action
(chat `actions.any`, not under `src/`) terminates the local lobby chat —
the current lobby message recipient is cleared ("terminate that chat
locally"). -/
def applyRemoveLobbyChatParticipant (s : ModeratorLeaveState) : ModeratorLeaveState :=
  { s with lobbyMessageRecipient := none }

/-- Modelled from the spec: the `REMOVE_LOBBY_CHAT_WITH_MODERATOR` reducer
(lobby reducer, not under `src/`) drops the stale {moderator, attendee}
pairing for the given moderator ("update bookkeeping to drop the stale
pairing"). -/
def applyRemoveChatWithModerator (s : ModeratorLeaveState) (moderatorId : String) :
    ModeratorLeaveState :=
  { s with knockingParticipants :=
      s.knockingParticipants.map fun p =>
        if p.chattingWithModerator == some moderatorId
        then { p with chattingWithModerator := none } else p }

/-- `updateLobbyParticipantOnModeratorLeave` (SpeakerStats.js:626-653).
If the local participant is knocking and its lobby chat recipient is the
departed moderator, dispatch `removeLobbyChatParticipant(true)`.  If the
local participant is not knocking, send a `MODERATOR_IN_CHAT_WITH_LEFT`
lobby message to the knocking participant whose `chattingWithModerator`
matches (if any) and dispatch `REMOVE_LOBBY_CHAT_WITH_MODERATOR`.  Returns
the new state (with the spec-modelled reducer effects of the dispatched
actions applied), the dispatched actions, and the conference commands. -/
def updateLobbyParticipantOnModeratorLeave (s : ModeratorLeaveState)
    (participantId : String) : ModeratorLeaveState × List LobbyAction × List ConfCommand :=
  if s.knocking && (match s.lobbyMessageRecipient with
      | some r => r.id == participantId
      | none => false) then
    (applyRemoveLobbyChatParticipant s, [LobbyAction.removeLobbyChatParticipant true], [])
  else if !s.knocking then
    (applyRemoveChatWithModerator s participantId,
     [LobbyAction.removeLobbyChatWithModerator participantId],
     match s.knockingParticipants.find? (fun p => p.chattingWithModerator == some participantId) with
     | some p => [ConfCommand.sendModeratorLeftMessage participantId p.id]
     | none => [])
  else (s, [], [])

/-- C4.  On `MODERATOR_IN_CHAT_WITH_LEFT` for moderator M: if the local
participant is knocking and its lobby chat recipient is M, the chat is
terminated locally (`removeLobbyChatParticipant(true)` dispatched, recipient
cleared) and re-delivering the same event changes nothing; if the local
participant is not knocking, the knocking participant whose
`chattingWithModerator` equals M (if any) is sent a
`MODERATOR_IN_CHAT_WITH_LEFT` lobby message and the stale pairing for M is
removed from the local bookkeeping. -/
theorem moderator_leave_handling (s : ModeratorLeaveState) (participantId : String) :
    (∀ r, s.knocking = true → s.lobbyMessageRecipient = some r → r.id = participantId →
      (updateLobbyParticipantOnModeratorLeave s participantId).1.lobbyMessageRecipient = none
      ∧ (updateLobbyParticipantOnModeratorLeave s participantId).2.1
          = [LobbyAction.removeLobbyChatParticipant true]
      ∧ updateLobbyParticipantOnModeratorLeave
          (updateLobbyParticipantOnModeratorLeave s participantId).1 participantId
          = ((updateLobbyParticipantOnModeratorLeave s participantId).1, [], []))
    ∧ (s.knocking = false →
      (∀ p, s.knockingParticipants.find?
            (fun p => p.chattingWithModerator == some participantId) = some p →
          ConfCommand.sendModeratorLeftMessage participantId p.id
            ∈ (updateLobbyParticipantOnModeratorLeave s participantId).2.2)
      ∧ LobbyAction.removeLobbyChatWithModerator participantId
          ∈ (updateLobbyParticipantOnModeratorLeave s participantId).2.1
      ∧ ∀ p ∈ (updateLobbyParticipantOnModeratorLeave s participantId).1.knockingParticipants,
          p.chattingWithModerator ≠ some participantId) := by
  obtain ⟨kn, ks, rec⟩ := s
  constructor
  · intro r hkn hrec hid
    have hkn' : kn = true := hkn
    have hrec' : rec = some r := hrec
    have hid' : r.id = participantId := hid
    subst hkn'
    subst hrec'
    subst hid'
    refine ⟨?_, ?_, ?_⟩ <;>
      simp [updateLobbyParticipantOnModeratorLeave, applyRemoveLobbyChatParticipant]
  · intro hkn
    have hkn' : kn = false := hkn
    subst hkn'
    refine ⟨?_, ?_, ?_⟩
    · intro p hp
      simp [updateLobbyParticipantOnModeratorLeave, hp]
    · simp [updateLobbyParticipantOnModeratorLeave]
    · intro p hp
      simp [updateLobbyParticipantOnModeratorLeave, applyRemoveChatWithModerator] at hp
      obtain ⟨q, hq, hpq⟩ := hp
      by_cases hqc : q.chattingWithModerator = some participantId
      · simp [hqc] at hpq
        rw [← hpq]
        simp
      · simp [hqc] at hpq
        rw [← hpq]
        exact hqc

/-- Witness for C4: the knocking attendee chatting with departed moderator
"m1" clears its recipient, and a second delivery is a no-op. -/
theorem moderator_leave_handling_witness :
    (updateLobbyParticipantOnModeratorLeave
        { knocking := true, knockingParticipants := [],
          lobbyMessageRecipient := some { id := "m1" } } "m1").1.lobbyMessageRecipient = none :=
  ((moderator_leave_handling
      { knocking := true, knockingParticipants := [],
        lobbyMessageRecipient := some { id := "m1" } } "m1").1
    { id := "m1" } rfl rfl rfl).1

/-! ## Web MessageRecipient component (src/unnamed/part_001) -/

/-- The chat slice read by `_mapStateToProps` (src/unnamed/part_001:78-89),
plus the `isLocalParticipantModerator(state)` query it performs. -/
structure ChatComposeState where
  privateMessageRecipient : Option ChatRecipient
  challengeResponseRecipient : Option ChatRecipient
  challengeResponseIsActive : Bool
  isModerator : Bool
  deriving Repr, DecidableEq

/-- The props computed by `_mapStateToProps`.  `privateRecipientName` is the
resolved display name of the private recipient (`none` models `undefined`). -/
structure MessageRecipientProps where
  privateRecipientName : Option String
  challengeResponseIsActive : Bool
  challengeResponseRecipientName : Option String
  visible : Bool
  deriving Repr, DecidableEq

/-- `_mapStateToProps` (src/unnamed/part_001:78-89).  `displayName` resolves
`getParticipantDisplayName(state, id)` (external collaborator). -/
def mapStateToProps (displayName : String → String) (s : ChatComposeState) :
    MessageRecipientProps :=
  { privateRecipientName := s.privateMessageRecipient.map fun r => displayName r.id
    challengeResponseIsActive := s.challengeResponseIsActive
    challengeResponseRecipientName :=
      if s.challengeResponseIsActive then s.challengeResponseRecipient.map (fun r => r.name)
      else none
    visible := if s.challengeResponseIsActive then s.isModerator else true }

/-- Which close handler the rendered widget wires. -/
inductive CloseHandler where
  | hideChallengeResponseRecipient
  | removePrivateMessageRecipient
  deriving Repr, DecidableEq

/-- The observable outcome of `MessageRecipient.render`
(src/unnamed/part_001:150-182): the displayed recipient name and the wired
close handler. -/
structure RenderedRecipient where
  recipientName : Option String
  closeHandler : CloseHandler
  deriving Repr, DecidableEq

/-- `MessageRecipient.render` (src/unnamed/part_001:150-182): renders nothing
when (no private recipient and no active challenge-response chat) or the
widget is not visible; otherwise the challenge-response recipient and close
handler take precedence whenever `challengeResponseIsActive`. -/
def renderMessageRecipient (props : MessageRecipientProps) : Option RenderedRecipient :=
  if (props.privateRecipientName.isNone && !props.challengeResponseIsActive)
      || !props.visible then
    none
  else some
    { recipientName :=
        if props.challengeResponseIsActive then props.challengeResponseRecipientName
        else props.privateRecipientName
      closeHandler :=
        if props.challengeResponseIsActive then CloseHandler.hideChallengeResponseRecipient
        else CloseHandler.removePrivateMessageRecipient }

/-- The connected component: `_mapStateToProps` composed with `render`. -/
def messageRecipientView (displayName : String → String) (s : ChatComposeState) :
    Option RenderedRecipient :=
  renderMessageRecipient (mapStateToProps displayName s)

/-- C10.  In the web MessageRecipient: when both a private recipient and an
active challenge-response recipient are set, whatever is rendered shows the
challenge-response recipient's name and wires its close handler
(precedence); during an active challenge-response chat the widget renders at
all only when the local participant is a moderator; and when neither a
private recipient is set nor a challenge-response chat is active, nothing is
rendered. -/
theorem message_recipient_rendering (displayName : String → String)
    (s : ChatComposeState) :
    (∀ pr cr w, s.privateMessageRecipient = some pr →
      s.challengeResponseRecipient = some cr →
      s.challengeResponseIsActive = true →
      messageRecipientView displayName s = some w →
      w = { recipientName := some cr.name,
            closeHandler := CloseHandler.hideChallengeResponseRecipient })
    ∧ (s.challengeResponseIsActive = true →
        (messageRecipientView displayName s).isSome → s.isModerator = true)
    ∧ (s.privateMessageRecipient = none → s.challengeResponseIsActive = false →
        messageRecipientView displayName s = none) := by
  obtain ⟨priv, chall, act, mod⟩ := s
  refine ⟨?_, ?_, ?_⟩
  · intro pr cr w hpr hcr hact hw
    have hpr' : priv = some pr := hpr
    have hcr' : chall = some cr := hcr
    have hact' : act = true := hact
    subst hpr'
    subst hcr'
    subst hact'
    cases mod with
    | false => simp [messageRecipientView, renderMessageRecipient, mapStateToProps] at hw
    | true =>
      simp [messageRecipientView, renderMessageRecipient, mapStateToProps] at hw
      exact hw.symm
  · intro hact hsome
    have hact' : act = true := hact
    subst hact'
    cases mod with
    | true => rfl
    | false =>
      simp [messageRecipientView, renderMessageRecipient, mapStateToProps] at hsome
  · intro hpriv hact
    have hpriv' : priv = none := hpriv
    have hact' : act = false := hact
    subst hpriv'
    subst hact'
    simp [messageRecipientView, renderMessageRecipient, mapStateToProps]

/-- Witness for C10: private recipient "p1" and active challenge-response
recipient "Attendee" set together, local participant a moderator — the
challenge-response name and close handler are rendered. -/
theorem message_recipient_rendering_witness :
    messageRecipientView (fun id => id)
        { privateMessageRecipient := some { id := "p1" },
          challengeResponseRecipient := some { id := "a1", name := "Attendee" },
          challengeResponseIsActive := true, isModerator := true }
      = some { recipientName := some "Attendee",
               closeHandler := CloseHandler.hideChallengeResponseRecipient } := by
  have h := (message_recipient_rendering (fun id => id)
      { privateMessageRecipient := some { id := "p1" },
        challengeResponseRecipient := some { id := "a1", name := "Attendee" },
        challengeResponseIsActive := true, isModerator := true }).1
      { id := "p1" } { id := "a1", name := "Attendee" }
  cases hv : messageRecipientView (fun id => id)
      { privateMessageRecipient := some { id := "p1" },
        challengeResponseRecipient := some { id := "a1", name := "Attendee" },
        challengeResponseIsActive := true, isModerator := true } with
  | none => exact absurd hv (by decide)
  | some w => rw [h w rfl rfl rfl hv]

end Jitsi
